import Mathlib

/-!
Verification of the `unwrap_or_else!` helper (src/src/lib.rs).

The repository is a single `macro_rules!` definition with five arms. We
embed it shallowly at two levels:

* Expansion semantics: each arm expands to a Rust `match` expression whose
  only effect is `eprintln!`, which appends one line to the diagnostic
  stream (stderr). A source expression is modelled as an `SExpr`: the text
  it writes to the diagnostic stream when it is evaluated, together with
  its value. Each arm of lib.rs lines 57-103 becomes one Lean function on
  already-evaluated container values and `SExpr` fallbacks.

* Dispatch semantics: `macro_rules!` tries its arms top to bottom and
  commits to the first whose matcher accepts the invocation's token list.
  A `$y:expr` fragment accepts any expression, including a closure
  `|e| body` and the bare path `Result`/`Option`. We model the argument
  tokens (`Arg`), the matcher fragments of the five arms (`Frag`), and the
  first-match dispatch (`dispatch`), mirroring the arm order of the source.
-/

namespace UnwrapOrElse

/-- A source expression as the expansion sees it: evaluating it appends
`out` to the diagnostic stream and yields `val`. -/
structure SExpr (α : Type) where
  out : String
  val : α

/-- Rust's `Result` container: `Ok(v)` or `Err(e)`. -/
inductive RustResult (V E : Type) where
  | ok (v : V)
  | err (e : E)

/-- The four-variant container shape that the scrutinee of the
shape-polymorphic arm (lib.rs lines 69-78) would need: its patterns name
the constructors `Ok`, `Some`, `Err` and `None` on a single scrutinee. -/
inductive PolyCont (V E : Type) where
  | ok (v : V)
  | err (e : E)
  | somev (v : V)
  | nonev

/-- `eprintln!("{}", x)` writes the display form of `x` and a newline. -/
def eprintlnOut (s : String) : String := s ++ "\n"

/-- Arm 1, lib.rs lines 59-67: `(Result, $x:expr, $y:expr)` expands to
`match $x { Ok(val) => val, Err(e) => { eprintln!("{}", e); $y } }`.
`toS` is the `Display` conversion of the error payload. -/
def unwrapResult {V E : Type} (toS : E → String) (x : RustResult V E)
    (y : SExpr V) : SExpr V :=
  match x with
  | .ok val => ⟨"", val⟩
  | .err e => ⟨eprintlnOut (toS e) ++ y.out, y.val⟩

/-- Arm 2, lib.rs lines 69-78: `($x:expr, $y:expr)` expands to
`match $x { Ok(val) | Some(val) => val, Err(e) => { eprintln!("{}", e); $y },
None => $y }`. Its patterns require a scrutinee with all four
constructors, modelled by `PolyCont`. -/
def unwrapPoly {V E : Type} (toS : E → String) (x : PolyCont V E)
    (y : SExpr V) : SExpr V :=
  match x with
  | .ok val => ⟨"", val⟩
  | .somev val => ⟨"", val⟩
  | .err e => ⟨eprintlnOut (toS e) ++ y.out, y.val⟩
  | .nonev => y

/-- Arm 3, lib.rs lines 80-85: `(Result, $x:expr, |$e:ident| $y:expr)`
expands to `match $x { Ok(val) => val, Err($e) => $y }`. The fallback is
an expression with the bound identifier free, modelled as a function of
the error payload. -/
def unwrapResultClosure {V E : Type} (x : RustResult V E)
    (y : E → SExpr V) : SExpr V :=
  match x with
  | .ok val => ⟨"", val⟩
  | .err e => y e

/-- Arm 4, lib.rs lines 87-92: `(Option, $x:expr, $y:expr)` expands to
`match $x { Some(val) => val, None => $y }`. -/
def unwrapOption {V : Type} (x : Option V) (y : SExpr V) : SExpr V :=
  match x with
  | .some val => ⟨"", val⟩
  | .none => y

/-- Arm 5, lib.rs lines 94-102: `(Option, $x:expr, $y:expr, $z:expr)`
expands to `match $x { Some(val) => val, None => { eprintln!("{}", $y);
$z } }`. The message `$y` is itself a source expression whose value is
printed via its `Display` conversion `toSM`. -/
def unwrapOptionMsg {V M : Type} (toSM : M → String) (x : Option V)
    (y : SExpr M) (z : SExpr V) : SExpr V :=
  match x with
  | .some val => ⟨"", val⟩
  | .none => ⟨y.out ++ eprintlnOut (toSM y.val) ++ z.out, z.val⟩

/-- One argument token tree of an invocation, as the matcher classifies
it: the bare path `Result`, the bare path `Option`, a closure `|e| body`,
or any other expression. -/
inductive Arg where
  | kwResult
  | kwOption
  | plainExpr
  | closure
deriving DecidableEq

/-- One matcher fragment of an arm: the literal token `Result`, the
literal token `Option`, an `$x:expr` fragment, or the `|$e:ident| $y:expr`
closure sub-matcher of the third arm. -/
inductive Frag where
  | litResult
  | litOption
  | fexpr
  | fclosure
deriving DecidableEq

/-- Whether one matcher fragment accepts one argument token tree. The
literal `Result`/`Option` accepts only that token; an `$x:expr` fragment
accepts every argument form, because the bare paths `Result` and `Option`
and a closure `|e| body` all parse as expressions; the closure sub-matcher
accepts only a closure. -/
def fragMatches : Frag → Arg → Bool
  | .litResult, .kwResult => true
  | .litResult, _ => false
  | .litOption, .kwOption => true
  | .litOption, _ => false
  | .fexpr, _ => true
  | .fclosure, .closure => true
  | .fclosure, _ => false

/-- Whether an arm's comma-separated matcher accepts an invocation's
comma-separated argument list, fragment by fragment. -/
def armMatches : List Frag → List Arg → Bool
  | [], [] => true
  | f :: fs, a :: rest => fragMatches f a && armMatches fs rest
  | _, _ => false

/-- The five arms of `unwrap_or_else!` in source order (lib.rs lines
57-103), each with its arm number and matcher. -/
def armTable : List (Nat × List Frag) :=
  [ (1, [Frag.litResult, Frag.fexpr, Frag.fexpr]),
    (2, [Frag.fexpr, Frag.fexpr]),
    (3, [Frag.litResult, Frag.fexpr, Frag.fclosure]),
    (4, [Frag.litOption, Frag.fexpr, Frag.fexpr]),
    (5, [Frag.litOption, Frag.fexpr, Frag.fexpr, Frag.fexpr]) ]

/-- `macro_rules!` dispatch: the number of the first arm, in source order,
whose matcher accepts the invocation; `none` is a build-time
"no rules expected this token" rejection. -/
def dispatch (invocation : List Arg) : Option Nat :=
  (armTable.find? (fun p => armMatches p.2 invocation)).map (fun p => p.1)

/-- Sequential composition of two source expressions: the diagnostic
output concatenates in order and both values are produced. Used to state
that an invocation's result and output contribution are independent of
any prior invocation. -/
def seqRun {α β : Type} (a : SExpr α) (b : SExpr β) : SExpr (α × β) :=
  ⟨a.out ++ b.out, (a.val, b.val)⟩

/-- The constructor names appearing in the patterns of the
shape-polymorphic arm and in the two standard container types. -/
inductive CtorName where
  | ok
  | err
  | somev
  | nonev
deriving DecidableEq

/-- The constructors named by the patterns of lib.rs lines 70-77:
`Ok(val) | Some(val)`, `Err(e)`, `None`. -/
def polyArmPatternCtors : List CtorName :=
  [CtorName.ok, CtorName.somev, CtorName.err, CtorName.nonev]

/-- The constructors of Rust's `Result`. -/
def rustResultCtors : List CtorName := [CtorName.ok, CtorName.err]

/-- The constructors of Rust's `Option`. -/
def rustOptionCtors : List CtorName := [CtorName.somev, CtorName.nonev]

/-- C1 (code bug): the invocation shape `(Result, c, |e| fb)` is never
dispatched to its dedicated closure arm. Because a closure is a valid
`expr`, the first arm `(Result, $x:expr, $y:expr)` captures it, so the
expansion that runs auto-prints the error payload (here `"disk full\n"`),
contrary to the claim that nothing is written automatically; the closure
arm, whose expansion would indeed write nothing on failure, is dead. -/
theorem claimC1_closure_shape_autoprints :
    dispatch [Arg.kwResult, Arg.plainExpr, Arg.closure] = some 1 ∧
    (unwrapResult (fun s => s) (RustResult.err "disk full")
      ⟨"", "fallback"⟩).out = "disk full\n" ∧
    (unwrapResultClosure (RustResult.err "disk full")
      (fun e => ⟨"", e⟩)).out = "" :=
  ⟨rfl, rfl, rfl⟩

/-- C2 (code bug): an invocation whose syntax denotes the recognized
closure shape (its token list is accepted by the third arm's matcher) is
silently dispatched to the first arm's semantics: `dispatch` selects arm 1,
not arm 3, violating the no-cross-dispatch invariant. -/
theorem claimC2_silent_cross_dispatch :
    armMatches [Frag.litResult, Frag.fexpr, Frag.fclosure]
      [Arg.kwResult, Arg.plainExpr, Arg.closure] = true ∧
    dispatch [Arg.kwResult, Arg.plainExpr, Arg.closure] = some 1 :=
  ⟨rfl, rfl⟩

/-- C3 (code bug): the shape-polymorphic arm's patterns name the
constructors `Ok`, `Some`, `Err`, `None` on one scrutinee, a set that is
contained in neither `Result`'s nor `Option`'s constructors, so the
expansion cannot typecheck against either standard container shape; it
would behave as claimed only on a single four-variant container, on which
the failure branch prints the error and yields the fallback. -/
theorem claimC3_poly_arm_fits_neither_container :
    (polyArmPatternCtors.all (fun c => rustResultCtors.contains c)) = false ∧
    (polyArmPatternCtors.all (fun c => rustOptionCtors.contains c)) = false ∧
    (unwrapPoly (fun s => s) (PolyCont.err "disk full")
      (⟨"", (0 : Nat)⟩ : SExpr Nat)) = ⟨"disk full\n", 0⟩ :=
  ⟨rfl, rfl, rfl⟩

/-- C4 (confirmed): on a failure container `Err e`, the `(Result, c, fb)`
expansion writes exactly the display form of `e` followed by a single
newline (then whatever `fb` itself writes), and evaluates to the value of
`fb`. -/
theorem claimC4_result_failure_prints_error {V E : Type} (toS : E → String)
    (e : E) (y : SExpr V) :
    unwrapResult toS (RustResult.err e) y = ⟨toS e ++ "\n" ++ y.out, y.val⟩ :=
  rfl

/-- C5 (confirmed): on a success- or present-tagged container with payload
`v`, every arm's expansion evaluates to exactly `v` and writes nothing to
the diagnostic stream. -/
theorem claimC5_success_paths_yield_payload {V E M : Type}
    (toS : E → String) (toSM : M → String) (v : V) (y : SExpr V)
    (yc : E → SExpr V) (m : SExpr M) (z : SExpr V) :
    unwrapResult toS (RustResult.ok v) y = ⟨"", v⟩ ∧
    unwrapPoly toS (PolyCont.ok v) y = ⟨"", v⟩ ∧
    unwrapPoly toS (PolyCont.somev v) y = ⟨"", v⟩ ∧
    unwrapResultClosure (RustResult.ok v) yc = ⟨"", v⟩ ∧
    unwrapOption (Option.some v) y = ⟨"", v⟩ ∧
    unwrapOptionMsg toSM (Option.some v) m z = ⟨"", v⟩ :=
  ⟨rfl, rfl, rfl, rfl, rfl, rfl⟩

/-- C6 (confirmed): on an absent container, the `(Option, c, msg, fb)`
expansion writes exactly the display form of the message followed by a
single newline (after any output of evaluating the message expression
itself and before any output of `fb`), then evaluates to the value of
`fb`. -/
theorem claimC6_option_msg_prints_message {V M : Type} (toSM : M → String)
    (m : SExpr M) (z : SExpr V) :
    unwrapOptionMsg toSM Option.none m z =
      ⟨m.out ++ (toSM m.val ++ "\n") ++ z.out, z.val⟩ :=
  rfl

/-- C7 (confirmed): on an absent container, the `(Option, c, fb)`
expansion writes nothing of its own and is exactly the fallback
expression: its output and value are those of `fb`. -/
theorem claimC7_option_absent_is_fallback {V : Type} (y : SExpr V) :
    unwrapOption Option.none y = y :=
  rfl

/-- C8 (confirmed): on the success/present path, every arm's expansion is
independent of the fallback expression (and, in the message shape, of the
message expression) and writes nothing: none of the fallback's effects
occur when the container carries a payload. -/
theorem claimC8_fallback_lazy_on_success {V E M : Type}
    (toS : E → String) (toSM : M → String) (v : V) (y y' : SExpr V)
    (yc yc' : E → SExpr V) (m m' : SExpr M) (z z' : SExpr V) :
    (unwrapResult toS (RustResult.ok v) y =
       unwrapResult toS (RustResult.ok v) y' ∧
     (unwrapResult toS (RustResult.ok v) y).out = "") ∧
    (unwrapPoly toS (PolyCont.ok v) y = unwrapPoly toS (PolyCont.ok v) y' ∧
     unwrapPoly toS (PolyCont.somev v) y =
       unwrapPoly toS (PolyCont.somev v) y' ∧
     (unwrapPoly toS (PolyCont.ok v) y).out = "") ∧
    (unwrapResultClosure (RustResult.ok v) yc =
       unwrapResultClosure (RustResult.ok v) yc' ∧
     (unwrapResultClosure (RustResult.ok v) yc).out = "") ∧
    (unwrapOption (Option.some v) y = unwrapOption (Option.some v) y' ∧
     (unwrapOption (Option.some v) y).out = "") ∧
    (unwrapOptionMsg toSM (Option.some v) m z =
       unwrapOptionMsg toSM (Option.some v) m' z' ∧
     (unwrapOptionMsg toSM (Option.some v) m z).out = "") :=
  ⟨⟨rfl, rfl⟩, ⟨rfl, rfl, rfl⟩, ⟨rfl, rfl⟩, ⟨rfl, rfl⟩, ⟨rfl, rfl⟩⟩

/-- C9 (confirmed): each expansion is a pure, local function of its own
arguments: run after an arbitrary prior invocation `p`, every arm
produces the same value as in isolation and contributes exactly its own
output after `p`'s, so equal arguments give equal results and equal
diagnostic output regardless of history. -/
theorem claimC9_expansion_pure_and_local {V E M : Type}
    (toS : E → String) (toSM : M → String) (p : SExpr Unit)
    (x : RustResult V E) (xp : PolyCont V E) (xo : Option V)
    (y : SExpr V) (yc : E → SExpr V) (m : SExpr M) (z : SExpr V) :
    (seqRun p (unwrapResult toS x y)).val.2 = (unwrapResult toS x y).val ∧
    (seqRun p (unwrapResult toS x y)).out =
      p.out ++ (unwrapResult toS x y).out ∧
    (seqRun p (unwrapPoly toS xp y)).val.2 = (unwrapPoly toS xp y).val ∧
    (seqRun p (unwrapPoly toS xp y)).out =
      p.out ++ (unwrapPoly toS xp y).out ∧
    (seqRun p (unwrapResultClosure x yc)).val.2 =
      (unwrapResultClosure x yc).val ∧
    (seqRun p (unwrapResultClosure x yc)).out =
      p.out ++ (unwrapResultClosure x yc).out ∧
    (seqRun p (unwrapOption xo y)).val.2 = (unwrapOption xo y).val ∧
    (seqRun p (unwrapOption xo y)).out = p.out ++ (unwrapOption xo y).out ∧
    (seqRun p (unwrapOptionMsg toSM xo m z)).val.2 =
      (unwrapOptionMsg toSM xo m z).val ∧
    (seqRun p (unwrapOptionMsg toSM xo m z)).out =
      p.out ++ (unwrapOptionMsg toSM xo m z).out :=
  ⟨rfl, rfl, rfl, rfl, rfl, rfl, rfl, rfl, rfl, rfl⟩

/-- C10 (confirmed): in the `(Option, c, msg, fb)` shape, when the
container is present the expansion is independent of the message
expression and writes nothing: the message's effects occur only on the
absent branch. -/
theorem claimC10_msg_lazy_on_present {V M : Type} (toSM : M → String)
    (v : V) (m m' : SExpr M) (z : SExpr V) :
    unwrapOptionMsg toSM (Option.some v) m z =
      unwrapOptionMsg toSM (Option.some v) m' z ∧
    (unwrapOptionMsg toSM (Option.some v) m z).out = "" :=
  ⟨rfl, rfl⟩

end UnwrapOrElse
